import Mathlib

/-!
Verification of the BitfinexLendingBot repository.

This file gives a shallow embedding, in Lean 4, of the parts of the
repository that the specification talks about:

* `src/main/python/core/strategies/optimal_allocation_strategy.py`
  (the allocation planner / opportunity analyzer),
* `src/main/python/core/dual_write_manager.py`
  (the dual-write migration manager),
* `src/main/python/services/daily_settlement_service.py`
  (the daily settlement service).

Conventions of the embedding:

* Python `Decimal` and `float` values are modelled as exact rationals `ℚ`
  (the arithmetic is idealized: we do not model binary floating point
  rounding, nor the `TypeError` that Python raises when a `Decimal` and a
  `float` meet in one arithmetic operation).
* Python dictionaries with a fixed set of relevant keys become structures;
  a dictionary that may lack keys becomes an `Option`.
* Fallible code returns `Except`; every `raise`/caught-exception point of
  the traced Python code is represented by an explicit error value or by an
  environment field describing the outcome of an external call
  (database, exchange API), so that all functions are total.
* Mutable object state (`self.stats`, feature flags) is passed explicitly:
  a method that mutates returns the new state.
-/

namespace LendingBot

/-- Exceptions of the Python runtime that the traced code can actually
raise (`decimal` division by zero, list index out of range). -/
inductive PyErr where
  | zeroDivision
  | indexError
  deriving Repr, DecidableEq

/-! ## `optimal_allocation_strategy.py` -/

/-- One entry of `market_data['rates_data']['bids']`: the code reads
`bid.get('rate', 0)` and `bid.get('amount', 0)`. -/
structure MarketBid where
  rate : ℚ
  amount : ℚ
  deriving Repr, DecidableEq

/-- The part of the `market_data` dict the strategy reads:
`market_data.get('rates_data', {}).get('bids', [])` and
`market_data.get('avg_rate', 0.08)` (`none` models an absent key). -/
structure MarketData where
  bids : List MarketBid
  avgRate : Option ℚ
  deriving Repr, DecidableEq

/-- `self.min_order_amount = 100` from `OptimalAllocationStrategy.__init__`. -/
def min_order_amount : ℚ := 100

/-- `self.target_utilization = 0.96` from `OptimalAllocationStrategy.__init__`. -/
def target_utilization : ℚ := 96 / 100

/-- `self.max_single_order_ratio = 0.15` from `OptimalAllocationStrategy.__init__`
(renamed `max_single_order_share` here for lexical reasons). -/
def max_single_order_share : ℚ := 15 / 100

/-- `OptimalAllocationStrategy._calculate_opportunity_score`. -/
def calculate_opportunity_score (rate volume : ℚ) (position : ℕ) : ℚ :=
  let base_rate : ℚ := 8 / 100
  let rate_score := min (rate / base_rate) (3 / 2)
  let volume_score := min (volume / 10000) 1
  let position_score := max 0 (1 - (position : ℚ) / 20)
  let risk_score : ℚ := 8 / 10
  rate_score * (4 / 10) + volume_score * (3 / 10) +
    position_score * (2 / 10) + risk_score * (1 / 10)

/-- `OptimalAllocationStrategy._estimate_fill_probability`.
`avg_rate = Decimal(str(market_data.get('avg_rate', 0.08)))`; when it is
zero the line `rate_diff = abs(rate - avg_rate) / avg_rate` raises a
decimal division-by-zero exception, which we make explicit. -/
def estimate_fill_probability (rate volume : ℚ) (market_data : MarketData) :
    Except PyErr ℚ :=
  let avg_rate := market_data.avgRate.getD (8 / 100)
  if avg_rate = 0 then .error .zeroDivision
  else
    let rate_diff := |rate - avg_rate| / avg_rate
    let rate_factor := max (1 / 10) (1 - rate_diff * 2)
    let volume_factor := min 1 (volume / 5000)
    let market_activity : ℚ := 8 / 10
    let probability :=
      rate_factor * (1 / 2) + volume_factor * (3 / 10) + market_activity * (2 / 10)
    .ok (max (1 / 10) (min (95 / 100) probability))

/-- One element of the `opportunities` list built by
`_analyze_market_opportunities`. -/
structure Opportunity where
  rate : ℚ
  volume : ℚ
  position : ℕ
  score : ℚ
  fill_probability : ℚ
  expected_return : ℚ
  risk_score : ℚ
  deriving Repr, DecidableEq

/-- The `for i, bid in enumerate(bids[:20])` loop body of
`_analyze_market_opportunities`: entries with `rate > 0 and volume > 0`
produce an opportunity, the others are skipped. -/
def analyze_loop (market_data : MarketData) :
    List (ℕ × MarketBid) → Except PyErr (List Opportunity)
  | [] => .ok []
  | (i, bid) :: rest =>
    if bid.rate > 0 ∧ bid.amount > 0 then
      match estimate_fill_probability bid.rate bid.amount market_data with
      | .error e => .error e
      | .ok fp =>
        match analyze_loop market_data rest with
        | .error e => .error e
        | .ok opps =>
          .ok ({ rate := bid.rate, volume := bid.amount, position := i,
                 score := calculate_opportunity_score bid.rate bid.amount i,
                 fill_probability := fp,
                 expected_return := bid.rate * fp,
                 risk_score := 1 - fp } :: opps)
    else
      analyze_loop market_data rest

instance : DecidableRel (fun a b : Opportunity => b.expected_return ≤ a.expected_return) :=
  fun _ _ => inferInstanceAs (Decidable _)

/-- `OptimalAllocationStrategy._analyze_market_opportunities`.
After the loop the list is sorted by `expected_return`, descending and
stable (`list.sort(key=..., reverse=True)`, modelled by a stable insertion
sort with the reflexive descending order).  The final
`log.debug(f"... {opportunities[0]['rate']:.4f}%")` evaluates
`opportunities[0]` even when no opportunity was found, raising
`IndexError`, which we make explicit. -/
def analyze_market_opportunities (market_data : MarketData) :
    Except PyErr (List Opportunity) :=
  match analyze_loop market_data ((market_data.bids.take 20).enum) with
  | .error e => .error e
  | .ok opportunities =>
    let sorted :=
      opportunities.insertionSort (fun a b => b.expected_return ≤ a.expected_return)
    if sorted.isEmpty then .error .indexError else .ok sorted

/-- One element of the allocation plan built by
`_calculate_optimal_allocation`. -/
structure Allocation where
  rate : ℚ
  amount : ℚ
  expected_return : ℚ
  risk_score : ℚ
  fill_probability : ℚ
  deriving Repr, DecidableEq

/-- `OptimalAllocationStrategy._calculate_optimal_order_size`. -/
def calculate_optimal_order_size (remaining_balance : ℚ) (opportunity : Opportunity)
    (index total_opportunities : ℕ) : ℚ :=
  let base_allocation := remaining_balance / ((total_opportunities : ℚ) - (index : ℚ))
  let quality_multiplier := max (1 / 2) (min 2 (opportunity.expected_return / (8 / 100)))
  let risk_multiplier := 1 - opportunity.risk_score * (1 / 2)
  let adjusted_amount := base_allocation * quality_multiplier * risk_multiplier
  let max_single_amount := remaining_balance * max_single_order_share
  max min_order_amount (min adjusted_amount max_single_amount)

/-- The `for i, opp in enumerate(sorted_opportunities)` loop of
`_calculate_optimal_allocation`, carrying `remaining_balance`; the loop
breaks as soon as `remaining_balance < self.min_order_amount`. -/
def allocate_loop (total_opportunities : ℕ) :
    List Opportunity → ℕ → ℚ → List Allocation
  | [], _, _ => []
  | opp :: rest, i, remaining_balance =>
    if remaining_balance < min_order_amount then []
    else
      let optimal_amount :=
        calculate_optimal_order_size remaining_balance opp i total_opportunities
      if min_order_amount ≤ optimal_amount then
        { rate := opp.rate, amount := optimal_amount,
          expected_return := optimal_amount * opp.expected_return / 365,
          risk_score := opp.risk_score,
          fill_probability := opp.fill_probability }
          :: allocate_loop total_opportunities rest (i + 1) (remaining_balance - optimal_amount)
      else
        allocate_loop total_opportunities rest (i + 1) remaining_balance

/-- `OptimalAllocationStrategy._calculate_optimal_allocation`. -/
def calculate_optimal_allocation (total_balance : ℚ) (opportunities : List Opportunity) :
    List Allocation :=
  let target_amount := total_balance * target_utilization
  let sorted_opportunities := opportunities.take 10
  allocate_loop sorted_opportunities.length sorted_opportunities 0 target_amount

/-- One order dict produced by the strategy. -/
structure Order where
  rate : ℚ
  amount : ℚ
  period : ℕ
  expected_return : ℚ
  confidence : ℚ
  deriving Repr, DecidableEq

/-- `OptimalAllocationStrategy._get_optimal_period`. -/
def get_optimal_period (rate : ℚ) : ℕ :=
  if 1 / 10 ≤ rate then 2
  else if 8 / 100 ≤ rate then 7
  else 30

/-- `OptimalAllocationStrategy._generate_optimized_orders`. -/
def generate_optimized_orders (allocation_plan : List Allocation) : List Order :=
  allocation_plan.map fun allocation =>
    { rate := allocation.rate, amount := allocation.amount,
      period := get_optimal_period allocation.rate,
      expected_return := allocation.expected_return,
      confidence := allocation.fill_probability }

instance : DecidableRel (fun a b : Order => b.rate ≤ a.rate) :=
  fun _ _ => inferInstanceAs (Decidable _)

/-- `OptimalAllocationStrategy._validate_and_adjust_offers`: scale the
amounts proportionally when their total exceeds the available balance,
drop orders below `min_order_amount`, sort by rate descending. -/
def validate_and_adjust_offers (offers : List Order) (available_balance : ℚ) :
    List Order :=
  if offers.isEmpty then offers
  else
    let total_amount := (offers.map (·.amount)).sum
    let adjusted :=
      if available_balance < total_amount then
        let scale := available_balance / total_amount
        offers.map fun offer => { offer with amount := offer.amount * scale }
      else offers
    let filtered := adjusted.filter fun offer => min_order_amount ≤ offer.amount
    filtered.insertionSort (fun a b => b.rate ≤ a.rate)

/-- `OptimalAllocationStrategy._generate_fallback_orders`:
`order_count = min(5, int(available_balance / 100))`, equal split. -/
def generate_fallback_orders (available_balance : ℚ) (market_data : MarketData) :
    List Order :=
  let order_count : ℕ := min 5 (⌊available_balance / min_order_amount⌋).toNat
  if order_count = 0 then []
  else
    let amount_per_order := available_balance / (order_count : ℚ)
    let base_rate := market_data.avgRate.getD (8 / 100)
    (List.range order_count).map fun i : ℕ =>
      let rate := base_rate + (i : ℚ) * (1 / 1000)
      { rate := rate, amount := amount_per_order, period := 7,
        expected_return := amount_per_order * rate / 365,
        confidence := 7 / 10 }

/-- `OptimalAllocationStrategy.generate_offers`: balances below
`min_order_amount` produce no orders; any exception inside the
analyze / allocate / validate pipeline falls back to
`_generate_fallback_orders`. -/
def generate_offers (available_balance : ℚ) (market_data : MarketData) : List Order :=
  if available_balance < min_order_amount then []
  else
    match analyze_market_opportunities market_data with
    | .ok opportunities =>
      validate_and_adjust_offers
        (generate_optimized_orders (calculate_optimal_allocation available_balance opportunities))
        available_balance
    | .error _ => generate_fallback_orders available_balance market_data

/-! ## `dual_write_manager.py` -/

/-- The five counters of `self.stats` in `DualWriteManager.__init__`. -/
structure DualWriteCounters where
  dual_writes : ℕ
  write_errors : ℕ
  comparison_checks : ℕ
  data_inconsistencies : ℕ
  new_system_errors : ℕ
  deriving Repr, DecidableEq

/-- The mutable state of a `DualWriteManager`: the three feature flags and
the stats counters. -/
structure DualWriteManager where
  enable_new_system_write : Bool
  enable_new_system_read : Bool
  enable_comparison : Bool
  stats : DualWriteCounters
  deriving Repr, DecidableEq

/-- The state set up by `DualWriteManager.__init__`. -/
def initialDualWriteManager : DualWriteManager :=
  { enable_new_system_write := true,
    enable_new_system_read := false,
    enable_comparison := true,
    stats := ⟨0, 0, 0, 0, 0⟩ }

/-- The dict returned by `DualWriteManager.get_dual_write_stats`. -/
structure DualWriteStatsReport where
  total_dual_writes : ℕ
  write_success_rate : ℚ
  new_system_error_rate : ℚ
  consistency_checks : ℕ
  data_inconsistencies : ℕ
  new_system_write_enabled : Bool
  new_system_read_enabled : Bool
  comparison_enabled : Bool
  deriving Repr, DecidableEq

/-- `DualWriteManager.get_dual_write_stats`: both rates are defined as 0
when `dual_writes` is 0. -/
def get_dual_write_stats (m : DualWriteManager) : DualWriteStatsReport :=
  let total_operations := m.stats.dual_writes
  { total_dual_writes := total_operations,
    write_success_rate :=
      if 0 < total_operations then
        ((total_operations : ℚ) - (m.stats.write_errors : ℚ)) / (total_operations : ℚ) * 100
      else 0,
    new_system_error_rate :=
      if 0 < total_operations then
        (m.stats.new_system_errors : ℚ) / (total_operations : ℚ) * 100
      else 0,
    consistency_checks := m.stats.comparison_checks,
    data_inconsistencies := m.stats.data_inconsistencies,
    new_system_write_enabled := m.enable_new_system_write,
    new_system_read_enabled := m.enable_new_system_read,
    comparison_enabled := m.enable_comparison }

/-- `DualWriteManager.full_cutover_to_new_system`: refuse (returning
`false` and leaving the state untouched) when the reported new-system
error rate exceeds 5 or `data_inconsistencies > consistency_checks * 0.1`;
otherwise enable new-system reads, disable comparison and return `true`. -/
def full_cutover_to_new_system (m : DualWriteManager) : Bool × DualWriteManager :=
  let stats := get_dual_write_stats m
  if 5 < stats.new_system_error_rate then (false, m)
  else if (stats.consistency_checks : ℚ) * (1 / 10) < (stats.data_inconsistencies : ℚ) then
    (false, m)
  else
    (true, { m with enable_new_system_read := true, enable_comparison := false })

/-- Outcome of the external calls made during one
`DualWriteManager.write_order_data` call:
* `legacy_success` — the boolean returned by `_write_to_legacy_system`
  (that helper catches every exception internally);
* `new_system_result` — the outcome of `_write_to_new_system`
  (`.error ()` models the call raising);
* `inconsistency_found` — whether `_perform_simple_consistency_check`
  records an inconsistency (`false` also covers its internal exceptions,
  which are caught and logged). -/
structure WriteEnv where
  legacy_success : Bool
  new_system_result : Except Unit Bool
  inconsistency_found : Bool

/-- `DualWriteManager.write_order_data`: always writes the legacy system,
optionally the new system (a `False` return or an exception increments
`new_system_errors`), optionally schedules a consistency check
(incrementing `comparison_checks` and possibly `data_inconsistencies`),
then increments `dual_writes`.  Every exception the helpers can raise is
caught inside them, so the `except` branch that would increment
`write_errors` is not reachable from the traced code. -/
def write_order_data (env : WriteEnv) (m : DualWriteManager) :
    Bool × DualWriteManager :=
  let s1 :=
    if m.enable_new_system_write then
      match env.new_system_result with
      | .ok true => m.stats
      | .ok false => { m.stats with new_system_errors := m.stats.new_system_errors + 1 }
      | .error _ => { m.stats with new_system_errors := m.stats.new_system_errors + 1 }
    else m.stats
  let s2 :=
    if m.enable_comparison && env.legacy_success then
      let s := { s1 with comparison_checks := s1.comparison_checks + 1 }
      if env.inconsistency_found then
        { s with data_inconsistencies := s.data_inconsistencies + 1 }
      else s
    else s1
  let s3 := { s2 with dual_writes := s2.dual_writes + 1 }
  (env.legacy_success, { m with stats := s3 })

/-- The account-status dict assembled by `_read_from_legacy_system` /
`_get_default_status` (the `last_updated` timestamp is not modelled). -/
structure AccountStatus where
  total_balance : ℚ
  money_working : ℚ
  money_idle : ℚ
  utilization_rate : ℚ
  daily_earnings : ℚ
  annual_rate : ℚ
  active_orders_count : ℕ
  avg_lending_rate : ℚ
  source : String
  deriving Repr, DecidableEq

/-- `DualWriteManager._get_default_status`. -/
def get_default_status : AccountStatus :=
  { total_balance := 0, money_working := 0, money_idle := 0,
    utilization_rate := 0, daily_earnings := 0, annual_rate := 0,
    active_orders_count := 0, avg_lending_rate := 0, source := "default" }

/-- An active order row of the legacy repository:
`order.get('amount', 0)` and `order.get('rate', 0)`. -/
structure LegacyOrder where
  amount : ℚ
  rate : ℚ
  deriving Repr, DecidableEq

/-- Outcome of the external calls made while reading account status:
* `new_system_status` — `account_status_v2.get_current_status()`;
* `legacy_active_orders` — `legacy_order_repo.get_active_orders()`;
* `today_interest_payments` — `legacy_interest_repo.get_by_date_range(...)`.
`.error ()` models the call raising. -/
structure ReadEnv where
  new_system_status : Except Unit AccountStatus
  legacy_active_orders : Except Unit (List LegacyOrder)
  today_interest_payments : Except Unit (List ℚ)

/-- `DualWriteManager._get_today_interest_legacy`: a bare `except` maps
any failure to 0. -/
def get_today_interest_legacy (env : ReadEnv) : ℚ :=
  match env.today_interest_payments with
  | .ok payments => payments.sum
  | .error _ => 0

/-- `DualWriteManager._read_from_legacy_system`: aggregates the active
legacy orders; any exception falls back to `_get_default_status`. -/
def read_from_legacy_system (env : ReadEnv) : AccountStatus :=
  match env.legacy_active_orders with
  | .error _ => get_default_status
  | .ok active_orders =>
    let total_lending := (active_orders.map (·.amount)).sum
    let avg_rate :=
      if active_orders.isEmpty then 0
      else (active_orders.map (·.rate)).sum / (active_orders.length : ℚ)
    let today_interest := get_today_interest_legacy env
    { total_balance := total_lending + 1000,
      money_working := total_lending,
      money_idle := 1000,
      utilization_rate :=
        if 0 < total_lending then total_lending / (total_lending + 1000) * 100 else 0,
      daily_earnings := today_interest,
      annual_rate :=
        if 0 < total_lending then today_interest / total_lending * 365 * 100 else 0,
      active_orders_count := active_orders.length,
      avg_lending_rate := avg_rate * 100,
      source := "legacy_system" }

/-- `DualWriteManager.read_account_status`: read the new system when
`enable_new_system_read` is set, falling back to the legacy aggregation
on any exception of that read; otherwise read the legacy aggregation.
No field of the manager state is mutated. -/
def read_account_status (env : ReadEnv) (m : DualWriteManager) :
    AccountStatus × DualWriteManager :=
  (if m.enable_new_system_read then
    match env.new_system_status with
    | .ok status => status
    | .error _ => read_from_legacy_system env
  else read_from_legacy_system env, m)

/-- Outcome of the external calls made by `health_check`:
`new_system_status = .ok none` models a falsy (empty) status dict,
`legacy_active_orders = .ok none` models `get_active_orders()` returning
`None`; `.error ()` models the call raising. -/
structure HealthEnv where
  new_system_status : Except Unit (Option AccountStatus)
  legacy_active_orders : Except Unit (Option (List LegacyOrder))

/-- The dict returned by `DualWriteManager.health_check` (the
`last_check` timestamp is not modelled; the code maps the key
`write_errors` to the write success rate, reproduced faithfully). -/
structure HealthReport where
  overall_health : String
  new_system_healthy : Bool
  legacy_system_healthy : Bool
  write_errors_rate : ℚ
  new_system_errors_rate : ℚ
  deriving Repr, DecidableEq

/-- `DualWriteManager.health_check`: no field of the manager state is
mutated. -/
def health_check (env : HealthEnv) (m : DualWriteManager) :
    HealthReport × DualWriteManager :=
  let new_system_healthy :=
    match env.new_system_status with
    | .ok (some status) => decide (0 ≤ status.total_balance)
    | .ok none => false
    | .error _ => false
  let legacy_system_healthy :=
    match env.legacy_active_orders with
    | .ok (some _) => true
    | .ok none => false
    | .error _ => false
  let stats := get_dual_write_stats m
  ({ overall_health :=
       if new_system_healthy && legacy_system_healthy then "healthy" else "degraded",
     new_system_healthy := new_system_healthy,
     legacy_system_healthy := legacy_system_healthy,
     write_errors_rate := stats.write_success_rate,
     new_system_errors_rate := stats.new_system_error_rate }, m)

/-! ## `daily_settlement_service.py` -/

/-- `SettlementStatus` from `models/daily_earnings.py` (referenced by the
service; the four states used by the service). -/
inductive SettlementStatus where
  | pending
  | inProgress
  | completed
  | failed
  deriving Repr, DecidableEq

/-- An `ActivePosition` as read by the settlement computations
(`amount`, `rate`, `status`, `strategy_name`). -/
structure ActivePosition where
  amount : ℚ
  rate : ℚ
  status : String
  strategy_name : String
  deriving Repr, DecidableEq

/-- The `SettlementInput` dataclass.  `exchange_wallet_balances` is a dict
holding either both of the keys `balance`/`available` or neither
(`_get_wallet_balances` always sets them together); `market_rates` holds
either both of `top_rate`/`avg_rate` or neither. -/
structure SettlementInput where
  date : String
  currency : String
  positions : List ActivePosition
  exchange_daily_interest : ℚ
  exchange_wallet_balances : Option (ℚ × ℚ)
  market_rates : Option (ℚ × ℚ)
  deriving Repr, DecidableEq

/-- The `DailyEarningsCreate` record assembled by
`_calculate_daily_earnings`. -/
structure DailyEarningsCreate where
  date : String
  currency : String
  total_interest : ℚ
  deployed_amount : ℚ
  available_amount : ℚ
  weighted_avg_rate : ℚ
  utilization_rate : ℚ
  daily_return_rate : ℚ
  annualized_return : ℚ
  primary_strategy : String
  total_orders_placed : ℕ
  orders_success_rate : ℚ
  market_avg_rate : Option ℚ
  market_competitiveness : Option ℚ
  deriving Repr, DecidableEq

/-- `DailySettlementService._calculate_weighted_avg_rate`. -/
def calculate_weighted_avg_rate (positions : List ActivePosition) : ℚ :=
  if positions.isEmpty then 0
  else
    let total_weighted := (positions.map fun pos => pos.amount * pos.rate).sum
    let total_amount := (positions.map (·.amount)).sum
    if 0 < total_amount then total_weighted / total_amount else 0

/-- Strategy names of the positions in first-occurrence order, without
duplicates: the iteration order of the `strategy_counts` dict. -/
def strategy_names : List ActivePosition → List String
  | [] => []
  | pos :: rest =>
    pos.strategy_name ::
      strategy_names (rest.filter fun p => p.strategy_name ≠ pos.strategy_name)
termination_by l => l.length
decreasing_by
  exact Nat.lt_succ_of_le (List.length_filter_le _ _)

/-- `DailySettlementService._analyze_strategy_performance`:
`(primary_strategy, total_orders, success_rate)`.  The primary strategy is
the first name, in dict iteration order, whose count is maximal
(`max(strategy_counts, key=strategy_counts.get)`). -/
def analyze_strategy_performance (positions : List ActivePosition) :
    String × ℕ × ℚ :=
  if positions.isEmpty then ("NONE", 0, 0)
  else
    let count := fun name => (positions.filter fun p => p.strategy_name = name).length
    let primary_strategy :=
      match strategy_names positions with
      | [] => "NONE"
      | first :: rest => rest.foldl (fun best n => if count best < count n then n else best) first
    let successful_positions :=
      (positions.filter fun pos => pos.status = "ACTIVE" ∨ pos.status = "CLOSED").length
    let success_rate := (successful_positions : ℚ) / (positions.length : ℚ) * 100
    (primary_strategy, positions.length, success_rate)

/-- `DailySettlementService._calculate_market_competitiveness`:
`None` unless the market rate is truthy and positive. -/
def calculate_market_competitiveness (our_rate market_rate : ℚ) : Option ℚ :=
  if 0 < market_rate then some (our_rate / market_rate * 100) else none

/-- `DailySettlementService._calculate_daily_earnings`. -/
def calculate_daily_earnings (input_data : SettlementInput) : DailyEarningsCreate :=
  let total_interest := input_data.exchange_daily_interest
  let deployed_amount :=
    ((input_data.positions.filter fun pos => pos.status = "ACTIVE").map (·.amount)).sum
  let available_amount := (input_data.exchange_wallet_balances.map Prod.snd).getD 0
  let total_amount := deployed_amount + available_amount
  let daily_return_rate :=
    if 0 < deployed_amount then total_interest / deployed_amount else 0
  let weighted_avg_rate :=
    if 0 < deployed_amount then calculate_weighted_avg_rate input_data.positions else 0
  let utilization_rate :=
    if 0 < total_amount then deployed_amount / total_amount * 100 else 0
  let annualized_return := daily_return_rate * 365 * 100
  let strategy_stats := analyze_strategy_performance input_data.positions
  let market_avg_rate := input_data.market_rates.map Prod.snd
  { date := input_data.date,
    currency := input_data.currency,
    total_interest := total_interest,
    deployed_amount := deployed_amount,
    available_amount := available_amount,
    weighted_avg_rate := weighted_avg_rate,
    utilization_rate := utilization_rate,
    daily_return_rate := daily_return_rate,
    annualized_return := annualized_return,
    primary_strategy := strategy_stats.1,
    total_orders_placed := strategy_stats.2.1,
    orders_success_rate := strategy_stats.2.2,
    market_avg_rate := market_avg_rate,
    market_competitiveness :=
      calculate_market_competitiveness weighted_avg_rate (market_avg_rate.getD 0) }

/-- The `SettlementResult` dataclass (the `warnings` list, always empty in
the traced paths, is not modelled). -/
structure SettlementResult where
  success : Bool
  daily_earnings : Option DailyEarningsCreate
  error_message : Option String
  deriving Repr, DecidableEq

/-- Outcome of `api_client.get_ledgers(...)` inside
`_get_daily_interest_from_exchange`: a list of ledger amounts
(`entry[3]`), a `BitfinexAPIError` (caught, falls back to local data), or
any other exception (propagates). -/
inductive LedgersOutcome where
  | ok (entries : List ℚ)
  | apiError
  | otherError
  deriving Repr, DecidableEq

/-- A row of `api_client.get_wallet_balances()`:
`wallet_type, wallet_currency, balance, _, available`. -/
structure WalletRow where
  wallet_type : String
  wallet_currency : String
  balance : ℚ
  available : ℚ
  deriving Repr, DecidableEq

/-- Outcome of the external calls made during one
`perform_daily_settlement(date, currency)` call.  `.error ()` models the
underlying call raising.  `funding_book_bids = .ok none` models a funding
book without a truthy `bids` entry. -/
structure SettleEnv where
  date : String
  currency : String
  ledgers : LedgersOutcome
  local_payments : Except Unit (List ℚ)
  wallet_rows : Except Unit (List WalletRow)
  funding_book_bids : Except Unit (Option (List ℚ))
  save_result : Except Unit Unit

/-- `DailySettlementService._get_daily_interest_from_exchange` (with its
`_get_local_daily_interest` fallback on `BitfinexAPIError`): sums the
positive ledger entries; a non-API exception, or a failure of the local
fallback, propagates. -/
def get_daily_interest_from_exchange (env : SettleEnv) : Except Unit ℚ :=
  match env.ledgers with
  | .ok entries => .ok ((entries.filter fun amount => 0 < amount).sum)
  | .apiError =>
    match env.local_payments with
    | .ok payments => .ok payments.sum
    | .error e => .error e
  | .otherError => .error ()

/-- `DailySettlementService._get_wallet_balances`: the first `funding`
wallet of the requested currency gives both keys; no matching wallet
gives an empty dict; any exception is caught and mapped to zero
balances. -/
def get_wallet_balances (env : SettleEnv) : Option (ℚ × ℚ) :=
  match env.wallet_rows with
  | .error _ => some (0, 0)
  | .ok rows =>
    match rows.find? fun w =>
        w.wallet_currency == env.currency && w.wallet_type == "funding" with
    | some w => some (w.balance, w.available)
    | none => none

/-- `DailySettlementService._get_market_rates`: average of the top five
bid rates; an empty or missing book, or any exception, gives an empty
dict. -/
def get_market_rates (env : SettleEnv) : Option (ℚ × ℚ) :=
  match env.funding_book_bids with
  | .error _ => none
  | .ok none => none
  | .ok (some []) => none
  | .ok (some (top :: rest)) =>
    let top_rates := (top :: rest).take 5
    let avg_rate := top_rates.sum / (top_rates.length : ℚ)
    some (top, avg_rate)

/-- `DailySettlementService._get_active_positions`: the integration is a
TODO in the source and the method always returns `[]`. -/
def get_active_positions (_env : SettleEnv) : List ActivePosition := []

/-- `DailySettlementService._collect_settlement_data`: gathers the four
inputs; only an exception escaping `_get_daily_interest_from_exchange`
can propagate (wrapped as `SettlementError`), since the other three
collectors handle their failures internally. -/
def collect_settlement_data (env : SettleEnv) : Except Unit SettlementInput :=
  match get_daily_interest_from_exchange env with
  | .error e => .error e
  | .ok interest =>
    .ok { date := env.date,
          currency := env.currency,
          positions := get_active_positions env,
          exchange_daily_interest := interest,
          exchange_wallet_balances := get_wallet_balances env,
          market_rates := get_market_rates env }

/-- Whether the data-collection step of `perform_daily_settlement`
raises (the only raising sub-step is the daily-interest collection). -/
def interest_collection_raises (env : SettleEnv) : Bool :=
  match env.ledgers with
  | .ok _ => false
  | .apiError =>
    match env.local_payments with
    | .ok _ => false
    | .error _ => true
  | .otherError => true

/-- `DailySettlementService.perform_daily_settlement`: returns the
structured result together with the final settlement status persisted for
the `(date, currency)` row (the row is first marked `IN_PROGRESS`, then
`COMPLETED` on success or `FAILED` when an exception reaches the
top-level handler; status updates themselves are modelled as reliable). -/
def perform_daily_settlement (env : SettleEnv) :
    SettlementResult × SettlementStatus :=
  match collect_settlement_data env with
  | .error _ =>
    ({ success := false, daily_earnings := none,
       error_message := some "Failed to collect settlement data" }, .failed)
  | .ok settlement_input =>
    let daily_earnings := calculate_daily_earnings settlement_input
    match env.save_result with
    | .error _ =>
      ({ success := false, daily_earnings := none,
         error_message := some "save failed" }, .failed)
    | .ok _ =>
      ({ success := true, daily_earnings := some daily_earnings,
         error_message := none }, .completed)

/-- `DailySettlementService.retry_failed_settlement`: re-runs
`perform_daily_settlement` only when the current status of the row is
`FAILED` (`current_status` is the result of `get_settlement_status`,
`none` when no record exists or the lookup fails).  The boolean of the
result records whether `perform_daily_settlement` was invoked. -/
def retry_failed_settlement (current_status : Option SettlementStatus)
    (env : SettleEnv) : SettlementResult × Bool :=
  if current_status = some .failed then
    ((perform_daily_settlement env).1, true)
  else
    ({ success := false, daily_earnings := none,
       error_message := some "cannot retry" }, false)

/-! ## Theorems -/

/-- Claim C2: `full_cutover_to_new_system` refuses cutover — returns
`false` and leaves the whole manager state (in particular
`enable_new_system_read` and `enable_comparison`) unchanged — whenever
`new_system_errors / dual_writes * 100 > 5` or
`data_inconsistencies / comparison_checks * 100 > 10`; otherwise it sets
`enable_new_system_read`, disables comparison and returns `true`.  Stated
for counter states where both divisions are defined. -/
theorem full_cutover_refusal_criterion (m : DualWriteManager)
    (hdw : 0 < m.stats.dual_writes) (hcc : 0 < m.stats.comparison_checks) :
    ((5 < (m.stats.new_system_errors : ℚ) / (m.stats.dual_writes : ℚ) * 100 ∨
      10 < (m.stats.data_inconsistencies : ℚ) / (m.stats.comparison_checks : ℚ) * 100) →
        full_cutover_to_new_system m = (false, m)) ∧
    (¬(5 < (m.stats.new_system_errors : ℚ) / (m.stats.dual_writes : ℚ) * 100 ∨
       10 < (m.stats.data_inconsistencies : ℚ) / (m.stats.comparison_checks : ℚ) * 100) →
        full_cutover_to_new_system m =
          (true, { m with enable_new_system_read := true, enable_comparison := false })) := by
  have hccq : (0 : ℚ) < (m.stats.comparison_checks : ℚ) := by exact_mod_cast hcc
  have hkey : (10 < (m.stats.data_inconsistencies : ℚ) /
        (m.stats.comparison_checks : ℚ) * 100) ↔
      ((m.stats.comparison_checks : ℚ) * (1 / 10) < (m.stats.data_inconsistencies : ℚ)) := by
    rw [div_mul_eq_mul_div, lt_div_iff₀ hccq]
    constructor <;> intro h <;> nlinarith
  simp only [full_cutover_to_new_system, get_dual_write_stats, hdw, if_true]
  by_cases h1 : 5 < (m.stats.new_system_errors : ℚ) / (m.stats.dual_writes : ℚ) * 100
  · rw [if_pos h1]
    exact ⟨fun _ => rfl, fun habs => absurd (Or.inl h1) habs⟩
  · rw [if_neg h1]
    by_cases h2 : (m.stats.comparison_checks : ℚ) * (1 / 10) <
        (m.stats.data_inconsistencies : ℚ)
    · rw [if_pos h2]
      exact ⟨fun _ => rfl, fun habs => absurd (Or.inr (hkey.2 h2)) habs⟩
    · rw [if_neg h2]
      refine ⟨fun hor => ?_, fun _ => rfl⟩
      rcases hor with h | h
      · exact absurd h h1
      · exact absurd (hkey.1 h) h2

/-- Witness for C2, at the counter state of the claim's concrete
scenario (`dual_writes = 100`, `new_system_errors = 6`,
`comparison_checks = 20`, `data_inconsistencies = 1`): the error rate is
6% > 5%, so cutover returns `false` and mutates nothing. -/
theorem full_cutover_refusal_criterion_witness :
    (0 < (100 : ℕ) ∧ 0 < (20 : ℕ) ∧
      5 < ((6 : ℕ) : ℚ) / ((100 : ℕ) : ℚ) * 100) ∧
    full_cutover_to_new_system
        { enable_new_system_write := true, enable_new_system_read := false,
          enable_comparison := true, stats := ⟨100, 0, 20, 1, 6⟩ } =
      (false,
        { enable_new_system_write := true, enable_new_system_read := false,
          enable_comparison := true, stats := ⟨100, 0, 20, 1, 6⟩ }) := by
  refine ⟨⟨by norm_num, by norm_num, by norm_num⟩, ?_⟩
  exact (full_cutover_refusal_criterion
    { enable_new_system_write := true, enable_new_system_read := false,
      enable_comparison := true, stats := ⟨100, 0, 20, 1, 6⟩ }
    (by norm_num) (by norm_num)).1 (Or.inl (by norm_num))

/-- Claim C9: immediately after construction (all five counters zero),
`full_cutover_to_new_system` succeeds: the reported error rate is defined
as 0 when `dual_writes = 0`, both refusal checks pass vacuously, so the
call returns `true`, enables new-system reads and disables comparison
without any evidence having been collected. -/
theorem full_cutover_succeeds_on_fresh_state :
    (get_dual_write_stats initialDualWriteManager).new_system_error_rate = 0 ∧
    full_cutover_to_new_system initialDualWriteManager =
      (true, { initialDualWriteManager with
                enable_new_system_read := true, enable_comparison := false }) := by
  constructor <;>
    norm_num [full_cutover_to_new_system, get_dual_write_stats, initialDualWriteManager]

/-- Claim C10: the five stats counters never decrease under any
`DualWriteManager` operation; `read_account_status`, `health_check` and
`full_cutover_to_new_system` leave all five unchanged
(`get_dual_write_stats` is embedded as a pure function of the state and
mutates nothing by construction), and every `write_order_data` call
increments exactly one of `dual_writes` / `write_errors` by 1 (always
`dual_writes`: the `except` branch incrementing `write_errors` is
unreachable because every helper catches its exceptions). -/
theorem dual_write_counters_monotone (wenv : WriteEnv) (renv : ReadEnv)
    (henv : HealthEnv) (m : DualWriteManager) :
    ((write_order_data wenv m).2.stats.dual_writes = m.stats.dual_writes + 1 ∧
     (write_order_data wenv m).2.stats.write_errors = m.stats.write_errors ∧
     m.stats.comparison_checks ≤ (write_order_data wenv m).2.stats.comparison_checks ∧
     m.stats.data_inconsistencies ≤ (write_order_data wenv m).2.stats.data_inconsistencies ∧
     m.stats.new_system_errors ≤ (write_order_data wenv m).2.stats.new_system_errors) ∧
    (read_account_status renv m).2 = m ∧
    (health_check henv m).2 = m ∧
    (full_cutover_to_new_system m).2.stats = m.stats := by
  refine ⟨?_, rfl, rfl, ?_⟩
  · obtain ⟨ls, nr, inc⟩ := wenv
    simp only [write_order_data]
    cases nr with
    | ok b => cases b <;> split_ifs <;> simp
    | error e => split_ifs <;> simp
  · simp only [full_cutover_to_new_system]
    split_ifs <;> rfl

/-- Claim C6: `read_account_status` never throws to the caller: with
`enable_new_system_read` unset (its initial value) it returns the
legacy-derived aggregation; with it set, it returns the new-system read,
and on any exception of that read falls back to the legacy aggregation
for that single call.  (The embedding is a total function: every
exception of the underlying calls is an explicit `ReadEnv` outcome.) -/
theorem read_account_status_total (env : ReadEnv) (m : DualWriteManager) :
    initialDualWriteManager.enable_new_system_read = false ∧
    (m.enable_new_system_read = false →
      read_account_status env m = (read_from_legacy_system env, m)) ∧
    (∀ status, m.enable_new_system_read = true → env.new_system_status = .ok status →
      read_account_status env m = (status, m)) ∧
    (m.enable_new_system_read = true → env.new_system_status = .error () →
      read_account_status env m = (read_from_legacy_system env, m)) := by
  refine ⟨rfl, fun h => ?_, fun status h hok => ?_, fun h herr => ?_⟩
  · simp [read_account_status, h]
  · simp [read_account_status, h, hok]
  · simp [read_account_status, h, herr]

/-- Witness for C6: a manager with new-system reads enabled whose
new-system read raises falls back to the legacy aggregation. -/
theorem read_account_status_total_witness :
    ({ initialDualWriteManager with
        enable_new_system_read := true } : DualWriteManager).enable_new_system_read = true ∧
    (ReadEnv.mk (.error ()) (.ok [⟨500, 2/10⟩]) (.ok [1])).new_system_status = .error () ∧
    read_account_status (ReadEnv.mk (.error ()) (.ok [⟨500, 2/10⟩]) (.ok [1]))
        { initialDualWriteManager with enable_new_system_read := true } =
      (read_from_legacy_system (ReadEnv.mk (.error ()) (.ok [⟨500, 2/10⟩]) (.ok [1])),
        { initialDualWriteManager with enable_new_system_read := true }) := by
  refine ⟨rfl, rfl, ?_⟩
  exact (read_account_status_total (ReadEnv.mk (.error ()) (.ok [⟨500, 2/10⟩]) (.ok [1]))
    { initialDualWriteManager with enable_new_system_read := true }).2.2.2 rfl rfl

/-- Claim C7: the daily-earnings computation satisfies
`deployed_amount = Σ amount over ACTIVE positions`,
`utilization_rate = deployed/(deployed+available)*100` when the total is
positive (else 0), `daily_return_rate = total_interest/deployed_amount`
when the deployed amount is positive (else 0), and
`annualized_return = daily_return_rate*365*100`; on the scenario
deployed = 3000, available = 2000, interest = 0.8 this gives
`utilization_rate = 60`, `daily_return_rate = 1/3750 ≈ 0.0002667` and
`annualized_return = 146/15 ≈ 9.73`. -/
theorem calculate_daily_earnings_formulas (input_data : SettlementInput) :
    ((calculate_daily_earnings input_data).deployed_amount =
        ((input_data.positions.filter fun pos => pos.status = "ACTIVE").map (·.amount)).sum ∧
      (calculate_daily_earnings input_data).available_amount =
        (input_data.exchange_wallet_balances.map Prod.snd).getD 0 ∧
      (calculate_daily_earnings input_data).total_interest =
        input_data.exchange_daily_interest ∧
      (calculate_daily_earnings input_data).utilization_rate =
        (if 0 < (calculate_daily_earnings input_data).deployed_amount +
              (calculate_daily_earnings input_data).available_amount then
          (calculate_daily_earnings input_data).deployed_amount /
            ((calculate_daily_earnings input_data).deployed_amount +
              (calculate_daily_earnings input_data).available_amount) * 100
        else 0) ∧
      (calculate_daily_earnings input_data).daily_return_rate =
        (if 0 < (calculate_daily_earnings input_data).deployed_amount then
          (calculate_daily_earnings input_data).total_interest /
            (calculate_daily_earnings input_data).deployed_amount
        else 0) ∧
      (calculate_daily_earnings input_data).annualized_return =
        (calculate_daily_earnings input_data).daily_return_rate * 365 * 100) ∧
    ((calculate_daily_earnings
        ⟨"2024-01-01", "USD", [⟨3000, 5/100, "ACTIVE", "optimal_allocation"⟩],
          8/10, some (2000, 2000), none⟩).utilization_rate = 60 ∧
      (calculate_daily_earnings
        ⟨"2024-01-01", "USD", [⟨3000, 5/100, "ACTIVE", "optimal_allocation"⟩],
          8/10, some (2000, 2000), none⟩).daily_return_rate = 1/3750 ∧
      (calculate_daily_earnings
        ⟨"2024-01-01", "USD", [⟨3000, 5/100, "ACTIVE", "optimal_allocation"⟩],
          8/10, some (2000, 2000), none⟩).annualized_return = 146/15 ∧
      |(calculate_daily_earnings
        ⟨"2024-01-01", "USD", [⟨3000, 5/100, "ACTIVE", "optimal_allocation"⟩],
          8/10, some (2000, 2000), none⟩).daily_return_rate - 2667/10000000| <
        1/10000000 ∧
      |(calculate_daily_earnings
        ⟨"2024-01-01", "USD", [⟨3000, 5/100, "ACTIVE", "optimal_allocation"⟩],
          8/10, some (2000, 2000), none⟩).annualized_return - 973/100| < 1/100) := by
  constructor
  · refine ⟨rfl, rfl, rfl, ?_, ?_, rfl⟩ <;> simp only [calculate_daily_earnings]
  · norm_num [calculate_daily_earnings, calculate_weighted_avg_rate,
      analyze_strategy_performance, strategy_names, calculate_market_competitiveness,
      List.filter, abs_sub_lt_iff]
    constructor <;> rw [abs_of_pos (by norm_num)] <;> norm_num

/-- Claim C8: `retry_failed_settlement` re-runs settlement only when the
current status of the row is `FAILED`; for every other current status
(`COMPLETED`, `IN_PROGRESS`, `PENDING`, or no record) it returns
`success = false` with an error message and does not invoke
`perform_daily_settlement`. -/
theorem retry_failed_settlement_requires_failed
    (current_status : Option SettlementStatus) (env : SettleEnv) :
    (current_status ≠ some .failed →
      (retry_failed_settlement current_status env).1.success = false ∧
      (retry_failed_settlement current_status env).1.error_message ≠ none ∧
      (retry_failed_settlement current_status env).1.daily_earnings = none ∧
      (retry_failed_settlement current_status env).2 = false) ∧
    (current_status = some .failed →
      retry_failed_settlement current_status env =
        ((perform_daily_settlement env).1, true)) := by
  constructor
  · intro h
    simp [retry_failed_settlement, h]
  · intro h
    simp [retry_failed_settlement, h]

/-- Witness for C8, at status `COMPLETED`: the retry is refused and the
settlement is not re-run. -/
theorem retry_failed_settlement_requires_failed_witness :
    (some SettlementStatus.completed ≠ some SettlementStatus.failed) ∧
    ((retry_failed_settlement (some .completed)
        ⟨"2024-01-01", "USD", .ok [], .ok [], .ok [], .ok none, .ok ()⟩).1.success = false ∧
      (retry_failed_settlement (some .completed)
        ⟨"2024-01-01", "USD", .ok [], .ok [], .ok [], .ok none, .ok ()⟩).1.error_message ≠ none ∧
      (retry_failed_settlement (some .completed)
        ⟨"2024-01-01", "USD", .ok [], .ok [], .ok [], .ok none, .ok ()⟩).1.daily_earnings = none ∧
      (retry_failed_settlement (some .completed)
        ⟨"2024-01-01", "USD", .ok [], .ok [], .ok [], .ok none, .ok ()⟩).2 = false) :=
  ⟨by decide,
    (retry_failed_settlement_requires_failed (some .completed)
      ⟨"2024-01-01", "USD", .ok [], .ok [], .ok [], .ok none, .ok ()⟩).1 (by decide)⟩

/-- An environment in which the only failing external call is the wallet
balance read of `_get_wallet_balances`. -/
def wallet_exception_env : SettleEnv :=
  { date := "2024-01-01", currency := "USD", ledgers := .ok [],
    local_payments := .ok [], wallet_rows := .error (),
    funding_book_bids := .ok none, save_result := .ok () }

/-- Counterexample to claim C3: an exception raised while collecting the
wallet balances does NOT mark the row `FAILED` — `_get_wallet_balances`
swallows it and substitutes zero balances, and the settlement is
persisted as `COMPLETED` with `success = true`. -/
theorem settlement_wallet_exception_completes :
    wallet_exception_env.wallet_rows = .error () ∧
    (perform_daily_settlement wallet_exception_env).1.success = true ∧
    (perform_daily_settlement wallet_exception_env).1.error_message = none ∧
    (perform_daily_settlement wallet_exception_env).2 = SettlementStatus.completed := by
  refine ⟨rfl, ?_, ?_, ?_⟩ <;> rfl

/-- Claim C3 as amended: exceptions that escape the data-collection step —
a non-API failure of the exchange ledger read, or a failure of the local
interest fallback after a `BitfinexAPIError` — and failures of the final
save mark the row `FAILED` and yield a structured failure (`success =
false`, non-null error, no earnings persisted); exceptions inside the
wallet-balance and market-rate collectors are swallowed with default
values and settlement completes as `COMPLETED`; no exception propagates
to the caller (the embedding is total). -/
theorem perform_daily_settlement_failure_semantics (env : SettleEnv) :
    ((interest_collection_raises env = true ∨ env.save_result = .error ()) →
      (perform_daily_settlement env).1.success = false ∧
      (perform_daily_settlement env).1.error_message ≠ none ∧
      (perform_daily_settlement env).1.daily_earnings = none ∧
      (perform_daily_settlement env).2 = SettlementStatus.failed) ∧
    (interest_collection_raises env = false → env.save_result = .ok () →
      (perform_daily_settlement env).1.success = true ∧
      (perform_daily_settlement env).1.error_message = none ∧
      (perform_daily_settlement env).2 = SettlementStatus.completed) := by
  obtain ⟨d, c, lg, lp, wr, fb, sv⟩ := env
  cases lg <;> cases lp <;> cases sv <;>
    simp_all [perform_daily_settlement, collect_settlement_data,
      get_daily_interest_from_exchange, interest_collection_raises]

/-- Witness for the amended C3, in an environment where the ledger read
raises a non-API exception: the row is marked `FAILED` and a structured
failure is returned. -/
theorem perform_daily_settlement_failure_semantics_witness :
    (interest_collection_raises { wallet_exception_env with ledgers := .otherError } = true ∨
      ({ wallet_exception_env with ledgers := .otherError } : SettleEnv).save_result =
        .error ()) ∧
    ((perform_daily_settlement { wallet_exception_env with ledgers := .otherError }).1.success
        = false ∧
      (perform_daily_settlement
          { wallet_exception_env with ledgers := .otherError }).1.error_message ≠ none ∧
      (perform_daily_settlement
          { wallet_exception_env with ledgers := .otherError }).1.daily_earnings = none ∧
      (perform_daily_settlement { wallet_exception_env with ledgers := .otherError }).2 =
        SettlementStatus.failed) :=
  ⟨Or.inl rfl,
    (perform_daily_settlement_failure_semantics
      { wallet_exception_env with ledgers := .otherError }).1 (Or.inl rfl)⟩

/-- Claim C4 (failing input): the claim asserts that
`_estimate_fill_probability` always returns a probability in
`[0.1, 0.95]` without raising, defining the `avg_rate = 0` edge case as
"no scoring possible, return 0.1".  The code instead divides by
`avg_rate` unguarded: at `rate = 0.05`, `volume = 1000` and market data
carrying `avg_rate = 0`, the line
`rate_diff = abs(rate - avg_rate) / avg_rate` raises a decimal
division-by-zero exception instead of returning 0.1. -/
theorem estimate_fill_probability_zero_avg_rate_raises :
    estimate_fill_probability (5/100) 1000 ⟨[], some 0⟩ = .error .zeroDivision := by
  norm_num [estimate_fill_probability]

/-- Claim C5 (failing input): the claim asserts that
`_analyze_market_opportunities` returns an empty opportunity list without
raising when the order book has no bid entries, and that zero-rate /
zero-volume entries are skipped without failure.  The loop does skip such
entries, but whenever no opportunity is produced — order book with no
bids at all, or only zero-rate / zero-volume entries — the trailing
`log.debug(f"... {opportunities[0]['rate']:.4f}%")` evaluates
`opportunities[0]` on the empty list and raises `IndexError`. -/
theorem analyze_market_opportunities_empty_bids_raises :
    analyze_market_opportunities ⟨[], some (8/100)⟩ = .error .indexError ∧
    analyze_market_opportunities ⟨[⟨0, 1000⟩, ⟨5/100, 0⟩], some (8/100)⟩ =
      .error .indexError := by
  constructor
  · norm_num [analyze_market_opportunities, analyze_loop]
  · norm_num [analyze_market_opportunities, analyze_loop, List.enum, List.enumFrom]

/-! ### Lemmas for claim C1 -/

lemma sum_map_const {α : Type} (l : List α) (c : ℚ) :
    (l.map fun _ => c).sum = (l.length : ℚ) * c := by
  induction l with
  | nil => simp
  | cons a t ih => simp [ih]; ring

lemma calculate_optimal_order_size_ge (remaining : ℚ) (opp : Opportunity)
    (i total : ℕ) :
    min_order_amount ≤ calculate_optimal_order_size remaining opp i total := by
  unfold calculate_optimal_order_size
  exact le_max_left _ _

lemma calculate_optimal_order_size_le (remaining : ℚ) (opp : Opportunity)
    (i total : ℕ) (hr : min_order_amount ≤ remaining) :
    calculate_optimal_order_size remaining opp i total ≤ remaining := by
  have h0 : (0 : ℚ) ≤ remaining := by
    rw [min_order_amount] at hr; linarith
  unfold calculate_optimal_order_size
  apply max_le hr
  refine le_trans (min_le_right _ _) ?_
  rw [max_single_order_share]
  linarith

lemma allocate_loop_bounds (total : ℕ) (opps : List Opportunity) :
    ∀ (i : ℕ) (r : ℚ), 0 ≤ r →
      (∀ a ∈ allocate_loop total opps i r, min_order_amount ≤ a.amount) ∧
      ((allocate_loop total opps i r).map (·.amount)).sum ≤ r := by
  induction opps with
  | nil => intro i r hr; simp [allocate_loop, hr]
  | cons opp rest ih =>
    intro i r hr
    by_cases hlt : r < min_order_amount
    · rw [allocate_loop, if_pos hlt]
      simpa using hr
    · have hr100 : min_order_amount ≤ r := not_lt.1 hlt
      have h100 := calculate_optimal_order_size_ge r opp i total
      have hle := calculate_optimal_order_size_le r opp i total hr100
      rw [allocate_loop, if_neg hlt, if_pos h100]
      have hrest := ih (i + 1) (r - calculate_optimal_order_size r opp i total)
        (by linarith)
      constructor
      · intro a ha
        rcases List.mem_cons.1 ha with rfl | hmem
        · exact h100
        · exact hrest.1 a hmem
      · simp only [List.map_cons, List.sum_cons]
        have := hrest.2
        linarith

lemma calculate_optimal_allocation_bounds (total_balance : ℚ)
    (opportunities : List Opportunity) (hb : 0 ≤ total_balance) :
    (∀ a ∈ calculate_optimal_allocation total_balance opportunities,
        min_order_amount ≤ a.amount) ∧
    ((calculate_optimal_allocation total_balance opportunities).map (·.amount)).sum ≤
      total_balance * target_utilization := by
  unfold calculate_optimal_allocation
  exact allocate_loop_bounds _ _ 0 _
    (mul_nonneg hb (by rw [target_utilization]; norm_num))

lemma generate_optimized_orders_amounts (allocation_plan : List Allocation) :
    (generate_optimized_orders allocation_plan).map (·.amount) =
      allocation_plan.map (·.amount) := by
  simp [generate_optimized_orders, List.map_map]

lemma generate_optimized_orders_mem (allocation_plan : List Allocation)
    (o : Order) (ho : o ∈ generate_optimized_orders allocation_plan) :
    ∃ a ∈ allocation_plan, o.amount = a.amount := by
  simp only [generate_optimized_orders, List.mem_map] at ho
  obtain ⟨a, ha, rfl⟩ := ho
  exact ⟨a, ha, rfl⟩

lemma validate_and_adjust_offers_bounds (offers : List Order)
    (available_balance : ℚ) (hb : 0 ≤ available_balance)
    (hpos : ∀ o ∈ offers, 0 ≤ o.amount)
    (hsum : (offers.map (·.amount)).sum ≤ available_balance) :
    (∀ o ∈ validate_and_adjust_offers offers available_balance,
        min_order_amount ≤ o.amount) ∧
    ((validate_and_adjust_offers offers available_balance).map (·.amount)).sum ≤
      available_balance := by
  unfold validate_and_adjust_offers
  by_cases he : offers.isEmpty
  · rw [if_pos he]
    rw [List.isEmpty_iff] at he
    subst he
    simpa using hb
  · rw [if_neg he]
    simp only [if_neg (not_lt.2 hsum)]
    set filtered := offers.filter (fun offer => min_order_amount ≤ offer.amount)
      with hfiltered
    have hperm :
        (filtered.insertionSort fun a b => b.rate ≤ a.rate).Perm filtered :=
      List.perm_insertionSort _ _
    constructor
    · intro o ho
      have hof : o ∈ filtered := hperm.mem_iff.1 ho
      rw [hfiltered, List.mem_filter] at hof
      exact of_decide_eq_true hof.2
    · have hsum_eq :
          (((filtered.insertionSort fun a b => b.rate ≤ a.rate)).map (·.amount)).sum =
            (filtered.map (·.amount)).sum :=
        (hperm.map (·.amount)).sum_eq
      rw [hsum_eq]
      refine le_trans ?_ hsum
      have hsub : filtered.Sublist offers := by
        rw [hfiltered]; exact List.filter_sublist _
      refine List.Sublist.sum_le_sum (hsub.map (·.amount)) ?_
      intro x hx
      rw [List.mem_map] at hx
      obtain ⟨o, ho, rfl⟩ := hx
      exact hpos o ho

lemma generate_fallback_orders_bounds (available_balance : ℚ)
    (market_data : MarketData) (hb : 0 ≤ available_balance) :
    (∀ o ∈ generate_fallback_orders available_balance market_data,
        min_order_amount ≤ o.amount) ∧
    ((generate_fallback_orders available_balance market_data).map (·.amount)).sum ≤
      available_balance := by
  simp only [generate_fallback_orders]
  set n : ℕ := min 5 (⌊available_balance / min_order_amount⌋).toNat with hn
  by_cases hz : n = 0
  · rw [if_pos hz]
    simpa using hb
  · rw [if_neg hz]
    have hn1 : 1 ≤ n := Nat.one_le_iff_ne_zero.2 hz
    have hnpos : (0 : ℚ) < (n : ℚ) := by exact_mod_cast hn1
    have hfq : (0 : ℚ) < min_order_amount := by rw [min_order_amount]; norm_num
    have hfloor_nonneg : (0 : ℤ) ≤ ⌊available_balance / min_order_amount⌋ :=
      Int.floor_nonneg.2 (div_nonneg hb hfq.le)
    have hcast : ((⌊available_balance / min_order_amount⌋.toNat : ℕ) : ℚ) ≤
        available_balance / min_order_amount := by
      rw [← Int.cast_natCast, Int.toNat_of_nonneg hfloor_nonneg]
      exact Int.floor_le _
    have hnle : (n : ℚ) ≤ available_balance / min_order_amount := by
      refine le_trans ?_ hcast
      exact_mod_cast Nat.min_le_right 5 _
    have hmul : (n : ℚ) * min_order_amount ≤ available_balance := by
      rw [← le_div_iff₀ hfq]
      exact hnle
    have hamount : min_order_amount ≤ available_balance / (n : ℚ) := by
      rw [le_div_iff₀ hnpos]
      calc min_order_amount * (n : ℚ) = (n : ℚ) * min_order_amount := by ring
        _ ≤ available_balance := hmul
    constructor
    · intro o ho
      simp only [List.mem_map, List.mem_range] at ho
      obtain ⟨i, _, rfl⟩ := ho
      exact hamount
    · rw [List.map_map]
      simp only [Function.comp_def]
      rw [sum_map_const, List.length_range]
      have hcancel : (n : ℚ) * (available_balance / (n : ℚ)) = available_balance := by
        field_simp
      rw [hcancel]

/-- Claim C1: for every nonnegative available balance and every
market-data input, the order list returned by `generate_offers` — the
optimal-allocation path as well as the fallback path — has every entry's
amount at least `min_order_amount` (100) and a total amount not exceeding
the available balance. -/
theorem generate_offers_respects_balance (available_balance : ℚ)
    (market_data : MarketData) (hb : 0 ≤ available_balance) :
    (∀ o ∈ generate_offers available_balance market_data,
        min_order_amount ≤ o.amount) ∧
    ((generate_offers available_balance market_data).map (·.amount)).sum ≤
      available_balance := by
  unfold generate_offers
  by_cases hlt : available_balance < min_order_amount
  · rw [if_pos hlt]
    simpa using hb
  · rw [if_neg hlt]
    cases hA : analyze_market_opportunities market_data with
    | error e => exact generate_fallback_orders_bounds _ _ hb
    | ok opportunities =>
      obtain ⟨halloc_mem, halloc_sum⟩ :=
        calculate_optimal_allocation_bounds available_balance opportunities hb
      have horders_pos : ∀ o ∈ generate_optimized_orders
          (calculate_optimal_allocation available_balance opportunities), 0 ≤ o.amount := by
        intro o ho
        obtain ⟨a, ha, heq⟩ := generate_optimized_orders_mem _ o ho
        have := halloc_mem a ha
        rw [min_order_amount] at this
        rw [heq]
        linarith
      have horders_sum : ((generate_optimized_orders
          (calculate_optimal_allocation available_balance opportunities)).map
            (·.amount)).sum ≤ available_balance := by
        rw [generate_optimized_orders_amounts]
        refine le_trans halloc_sum ?_
        rw [target_utilization]
        linarith
      exact validate_and_adjust_offers_bounds _ _ hb horders_pos horders_sum

/-- Witness for C1 at balance 250 with an empty order book: the fallback
path produces two orders of 125 each, within the bounds. -/
theorem generate_offers_respects_balance_witness :
    (0 : ℚ) ≤ 250 ∧
    ((∀ o ∈ generate_offers 250 ⟨[], none⟩, min_order_amount ≤ o.amount) ∧
      ((generate_offers 250 ⟨[], none⟩).map (·.amount)).sum ≤ 250) :=
  ⟨by norm_num, generate_offers_respects_balance 250 ⟨[], none⟩ (by norm_num)⟩

end LendingBot
